import Mathlib

set_option autoImplicit false

/-!
Shallow embedding of the `make_lastz_chains` pipeline-orchestration code
(`make_chains.py`, `modules/step_executables.py`, `modules/pipeline_steps.py`,
`steps_implementations/clean_chain_step.py`, `steps_implementations/chain_run_step.py`,
`steps_implementations/bundle_psl_step.py`), together with theorems settling the
specification claims about it.  External subprocesses, the platform and the
filesystem are modelled as explicit inputs (a `World`-style record per step);
each step function returns the trace of externally visible actions it performs
and its outcome, in the order the Python code performs them.
-/

/-! ## Python value and string primitives -/

/-- A Python scalar as it flows out of `argparse`: either an `int` (options declared
with `type=int`, such as `--fill_chain`) or a `bool`.  Needed because
`clean_chain_step.py` tests a parameter with the identity test `is True`. -/
inductive PyVal where
  | int (n : Int)
  | bool (b : Bool)
deriving DecidableEq

/-- Python's identity test `x is True`: only the boolean `True` passes; in particular
the integer `1` does not (`1 is True` is `False` in Python). -/
def pyIsTrue : PyVal → Bool
  | .bool true => true
  | _ => false

/-- Boolean prefix test on character lists (kernel-computable). -/
def listIsPrefixOf : List Char → List Char → Bool
  | [], _ => true
  | _ :: _, [] => false
  | a :: as, b :: bs => a == b && listIsPrefixOf as bs

/-- Boolean infix (substring) test on character lists (kernel-computable). -/
def listIsInfixOf : List Char → List Char → Bool
  | sub, [] => listIsPrefixOf sub []
  | sub, c :: t => listIsPrefixOf sub (c :: t) || listIsInfixOf sub t

/-- `sub` occurs as a contiguous substring of `s`. -/
def strContains (s sub : String) : Bool := listIsInfixOf sub.data s.data

/-- `s` ends with `suf` (Python `str.endswith`). -/
def str_endsWith (s suf : String) : Bool := listIsPrefixOf suf.data.reverse s.data.reverse

/-- POSIX model of an absolute path: it starts with a slash. -/
def isAbs (p : String) : Bool := p.data.head? == some ('/')

/-- Model of `os.path.join` on two components: an absolute second component replaces
the first, otherwise the two are joined with a slash (trailing-slash normalisation
is not modelled; no path used here ends in a slash). -/
def path_join (a b : String) : String := if isAbs b then b else a ++ ("/") ++ b

/-- Model of `os.path.abspath` relative to a current working directory `cwd`
(`normpath` simplification is not modelled). -/
def abspath (cwd p : String) : String := if isAbs p then p else path_join cwd p

/-- Python `str.removesuffix`. -/
def removesuffix (s suf : String) : String :=
  if str_endsWith s suf then ⟨s.data.take (s.data.length - suf.data.length)⟩ else s

/-- Helper for `py_split_ws`: split a character list at whitespace characters,
keeping empty fields. -/
def split_ws_aux : List Char → List Char → List (List Char)
  | [], cur => [cur.reverse]
  | c :: rest, cur =>
    if c.isWhitespace then cur.reverse :: split_ws_aux rest []
    else split_ws_aux rest (c :: cur)

/-- Python `str.split()` with no argument: split on whitespace, dropping empty
fields. -/
def py_split_ws (s : String) : List String :=
  ((split_ws_aux s.data []).filter (fun t => !t.isEmpty)).map (fun t => ⟨t⟩)

/-! ## Chain-clean step (`steps_implementations/clean_chain_step.py`) -/

/-- The fields of `ProjectPaths` read by the chain-clean step
(`modules/project_paths.py` is not part of the sources; these are exactly the
attributes `clean_chain_step.py` dereferences). -/
structure ProjectPaths where
  filled_chain : String
  merged_chain : String
  before_cleaning_chain : String
  clean_removed_suspects : String
  chain_cleaner_log : String
  chain_clean_micro_env : String
deriving DecidableEq

/-- The fields of `PipelineParameters` read by the chain-clean step.  `fill_chain`
carries the value of the `--fill_chain` CLI option, which `make_chains.py` declares
with `type=int` and default `1`. -/
structure CleanParams where
  fill_chain : PyVal
  seq_1_dir : String
  seq_2_dir : String
  seq_1_len : String
  seq_2_len : String
  chain_linear_gap : String
  clean_chain_parameters : String
deriving DecidableEq

/-- The outside world observed by one run of `do_chains_clean`: which files exist,
`platform.system()`, and the chain-cleaner and gzip subprocess results. -/
structure CleanWorld where
  isfile : String → Bool
  platformSystem : String
  cleanerReturncode : Int
  cleanerStderr : String
  gzipReturncode : Int

/-- Externally visible actions of the chain-clean step, in program order. -/
inductive CleanEvent where
  | moveFile (src dst : String)
  | runCleaner (cmd : List String)
  | logToleratedAnomaly
  | runGzip (file : String)
deriving DecidableEq

/-- Result of the chain-clean step: normal return, the `RuntimeError` raised for a
missing input chain, or a `PipelineSubprocessError`. -/
inductive CleanOutcome where
  | ok
  | runtimeError (msg : String)
  | subprocessError (msg : String)
deriving DecidableEq

/-- Input selection at the top of `do_chains_clean`:
`if params.fill_chain is True: input_chain = filled` else `merged`. -/
def select_input_chain (params : CleanParams) (paths : ProjectPaths) : String :=
  if pyIsTrue params.fill_chain then paths.filled_chain else paths.merged_chain

/-- The `chain_cleaner_cmd` argument vector built by `do_chains_clean`. -/
def chain_cleaner_cmd (chain_cleaner : String) (params : CleanParams)
    (paths : ProjectPaths) (output_chain : String) : List String :=
  [chain_cleaner,
   paths.before_cleaning_chain,
   params.seq_1_dir,
   params.seq_2_dir,
   output_chain,
   paths.clean_removed_suspects,
   ("-linearGap=") ++ params.chain_linear_gap,
   ("-tSizes=") ++ params.seq_1_len,
   ("-qSizes=") ++ params.seq_2_len]
  ++ py_split_ws params.clean_chain_parameters

/-- Error text raised when the cleaner subprocess dies on a non-macOS platform. -/
def cleaner_err_msg (stderr : String) : String :=
  ("chain cleaner process died with the following error message: ") ++ stderr

/-- Error text raised when the final gzip call fails. -/
def gzip_fail_msg : String := "gzip command at clean chain step failed"

/-- The tail of `do_chains_clean`: run `gzip` on the output chain; a non-zero exit
raises `PipelineSubprocessError` on every platform. -/
def clean_gzip_stage (evs : List CleanEvent) (output_chain : String) (w : CleanWorld) :
    List CleanEvent × CleanOutcome :=
  let evs2 := evs ++ [CleanEvent.runGzip output_chain]
  if w.gzipReturncode = 0 then (evs2, CleanOutcome.ok)
  else (evs2, CleanOutcome.subprocessError gzip_fail_msg)

/-- Embedding of `do_chains_clean` from `clean_chain_step.py`: select the input
chain, fail if it is missing, move it aside, run the cleaner (tolerating a non-zero
exit only on `Darwin`), then gzip the output. -/
def do_chains_clean (params : CleanParams) (paths : ProjectPaths)
    (chain_cleaner : String) (w : CleanWorld) : List CleanEvent × CleanOutcome :=
  let input_chain := select_input_chain params paths
  if !(w.isfile input_chain) then
    ([], CleanOutcome.runtimeError (("Cannot find ") ++ input_chain))
  else
    let output_chain := removesuffix input_chain (".gz")
    let cmd := chain_cleaner_cmd chain_cleaner params paths output_chain
    let pre : List CleanEvent :=
      [CleanEvent.moveFile input_chain paths.before_cleaning_chain,
       CleanEvent.runCleaner cmd]
    if w.cleanerReturncode ≠ 0 then
      if w.platformSystem = ("Darwin") then
        clean_gzip_stage (pre ++ [CleanEvent.logToleratedAnomaly]) output_chain w
      else
        (pre, CleanOutcome.subprocessError (cleaner_err_msg w.cleanerStderr))
    else
      clean_gzip_stage pre output_chain w

/-! Concrete instances used to evaluate the chain-clean step. -/

def paths0 : ProjectPaths :=
  { filled_chain := "/proj/TEMP_axtChain/filled.chain.gz",
    merged_chain := "/proj/TEMP_axtChain/merged.chain.gz",
    before_cleaning_chain := "/proj/before_cleaning.chain.gz",
    clean_removed_suspects := "/proj/removed_suspects.txt",
    chain_cleaner_log := "/proj/chain_cleaner.log",
    chain_clean_micro_env := "/proj/chain_clean_micro_env" }

/-- Parameters as produced by the CLI defaults: `--fill_chain` is the integer 1. -/
def cleanParams1 : CleanParams :=
  { fill_chain := .int 1,
    seq_1_dir := "/proj/target.2bit",
    seq_2_dir := "/proj/query.2bit",
    seq_1_len := "/proj/target.sizes",
    seq_2_len := "/proj/query.sizes",
    chain_linear_gap := "loose",
    clean_chain_parameters := "-LRfoldThreshold=2.5 -doPairs" }

def cleaner0 : String := "/opt/kent/chainCleaner"

/-- World after a completed fill step: only the filled chain artifact is on disk. -/
def cleanWorldFilledOnly : CleanWorld :=
  { isfile := fun f => f == paths0.filled_chain,
    platformSystem := "Linux",
    cleanerReturncode := 0,
    cleanerStderr := "",
    gzipReturncode := 0 }

/-- World where every file exists, the cleaner exits 1 on macOS, gzip succeeds. -/
def cleanWorldDarwin : CleanWorld :=
  { isfile := fun _ => true,
    platformSystem := "Darwin",
    cleanerReturncode := 1,
    cleanerStderr := "cleaner blew up",
    gzipReturncode := 0 }

/-- Same as `cleanWorldDarwin` but on Linux. -/
def cleanWorldLinux : CleanWorld :=
  { cleanWorldDarwin with platformSystem := "Linux" }

/-- C1: the claim says the chain-clean step selects the filled chain artifact when
the fill-chains step ran (`fill_chain` enabled).  The CLI parses `--fill_chain` with
`type=int` (default 1), while `do_chains_clean` tests `params.fill_chain is True`;
the integer 1 is not the boolean `True`, so the merged chain is selected even though
fill ran, and with only the filled artifact on disk the step raises
`Cannot find <merged>` before any move or subprocess call.  This theorem evaluates
the embedded code at that failing input. -/
theorem C1_fill_chain_selection_bug :
    select_input_chain cleanParams1 paths0 = paths0.merged_chain
    ∧ paths0.merged_chain ≠ paths0.filled_chain
    ∧ pyIsTrue cleanParams1.fill_chain = false
    ∧ do_chains_clean cleanParams1 paths0 cleaner0 cleanWorldFilledOnly
        = ([], CleanOutcome.runtimeError (("Cannot find ") ++ paths0.merged_chain)) := by
  refine ⟨rfl, by decide, rfl, by decide⟩

/-- C3: when the chain-cleaner subprocess exits non-zero and the selected input chain
exists: on a non-macOS platform the step raises a subprocess error whose message
carries the captured stderr; on macOS it does not raise for that exit code, logs the
tolerated-anomaly message, and proceeds to the gzip compression stage, whose own
outcome then decides the result. -/
theorem C3_cleaner_exit_platform_handling
    (params : CleanParams) (paths : ProjectPaths) (cleaner : String) (w : CleanWorld)
    (hrc : w.cleanerReturncode ≠ 0)
    (hfile : w.isfile (select_input_chain params paths) = true) :
    (w.platformSystem ≠ ("Darwin") →
      (do_chains_clean params paths cleaner w).2
        = CleanOutcome.subprocessError (cleaner_err_msg w.cleanerStderr))
    ∧ (w.platformSystem = ("Darwin") →
      CleanEvent.logToleratedAnomaly ∈ (do_chains_clean params paths cleaner w).1
      ∧ CleanEvent.runGzip (removesuffix (select_input_chain params paths) (".gz"))
          ∈ (do_chains_clean params paths cleaner w).1
      ∧ (do_chains_clean params paths cleaner w).2
          = (if w.gzipReturncode = 0 then CleanOutcome.ok
             else CleanOutcome.subprocessError gzip_fail_msg)) := by
  unfold do_chains_clean clean_gzip_stage
  simp only [hfile, Bool.not_true, Bool.false_eq_true, if_false, if_pos, hrc, ite_true,
    if_neg, not_false_iff]
  constructor
  · intro hplat
    simp [hplat, hrc]
  · intro hplat
    by_cases hg : w.gzipReturncode = 0 <;> simp [hplat, hrc, hg]

/-- C3 witness: the theorem applied on a Linux world and on a Darwin world, both with
cleaner exit code 1 and every file present. -/
theorem C3_cleaner_exit_platform_handling_witness :
    (do_chains_clean cleanParams1 paths0 cleaner0 cleanWorldLinux).2
      = CleanOutcome.subprocessError (cleaner_err_msg cleanWorldLinux.cleanerStderr)
    ∧ CleanEvent.logToleratedAnomaly
        ∈ (do_chains_clean cleanParams1 paths0 cleaner0 cleanWorldDarwin).1 := by
  refine ⟨(C3_cleaner_exit_platform_handling cleanParams1 paths0 cleaner0 cleanWorldLinux
      (by decide) (by rfl)).1 (by decide), ?_⟩
  exact ((C3_cleaner_exit_platform_handling cleanParams1 paths0 cleaner0 cleanWorldDarwin
      (by decide) (by rfl)).2 rfl).1

/-! ## Executable resolvers (`make_chains.py` and `modules/step_executables.py`) -/

/-- Filesystem and search-path environment the resolvers consult. -/
structure OsEnv where
  which : String → Option String
  isfile : String → Bool
  path_exists : String → Bool

/-- The record built by the `StepExecutables` class defined inside `make_chains.py`
itself — the one `run_pipeline` instantiates. -/
structure McStepExecutables where
  partition_script : String
  lastz_wrapper : String
  split_chain_into_random_parts : String
  bundle_chrom_split_psl_files : String
  fa_to_two_bit : String
  two_bit_to_fa : String
deriving DecidableEq

/-- `make_chains.StepExecutables.__find_script`: raises `ValueError` immediately
when the script file is absent from the scripts subdirectory. -/
def mc_find_script (script_location cwd : String) (env : OsEnv) (name : String) :
    Except String String :=
  let abs := abspath cwd (path_join (path_join script_location ("standalone_scripts")) name)
  if env.isfile abs then .ok abs
  else .error (("Error! Cannot locate script: ") ++ name)

/-- `make_chains.StepExecutables.__find_binary`: raises `ValueError` immediately
when `shutil.which` fails. -/
def mc_find_binary (env : OsEnv) (name : String) : Except String String :=
  match env.which name with
  | some p => .ok p
  | none => .error (("Error! Cannot locate binary: ") ++ name)

/-- `make_chains.StepExecutables.__init__`: resolves four scripts and two binaries
in source order, stopping at the first failure. -/
def mc_StepExecutables (script_location cwd : String) (env : OsEnv) :
    Except String McStepExecutables := do
  let partition_script ← mc_find_script script_location cwd env ("partitionSequence.pl")
  let lastz_wrapper ← mc_find_script script_location cwd env ("run_lastz.py")
  let split_chain ← mc_find_script script_location cwd env ("split_chain_into_random_parts.pl")
  let bundle ← mc_find_script script_location cwd env ("bundle_chrom_split_psl_files.perl")
  let fa_to_two_bit ← mc_find_binary env ("faToTwoBit")
  let two_bit_to_fa ← mc_find_binary env ("twoBitToFa")
  .ok ⟨partition_script, lastz_wrapper, split_chain, bundle, fa_to_two_bit, two_bit_to_fa⟩

/-- A value recorded by the modules resolver: a filesystem path, the Python boolean
`True` (what `__locate_chain_net` returns on success), or Python `None`. -/
inductive ExecValue where
  | path (p : String)
  | pyTrue
  | pyNone
deriving DecidableEq

/-- The recorded value is a filesystem path (not a boolean or `None`). -/
def isPathValue : ExecValue → Bool
  | .path _ => true
  | _ => false

/-- `modules.step_executables.StepExecutables.__find_script`: a missing script is
appended to `not_found` and `None` is stored; nothing is raised here. -/
def mod_find_script (root_dir cwd : String) (env : OsEnv) (name : String)
    (not_found : List String) : ExecValue × List String :=
  let abs := abspath cwd (path_join (path_join root_dir ("standalone_scripts")) name)
  if env.isfile abs then (.path abs, not_found)
  else (.pyNone, not_found ++ [name])

/-- `__find_binary`: search path first, then the Kent-binaries directory under the
root; the joined fallback path is stored even when that file is absent, with the
name appended to `not_found` in that case. -/
def mod_find_binary (hl_kent_binaries_path : String) (env : OsEnv) (name : String)
    (not_found : List String) : ExecValue × List String :=
  match env.which name with
  | some p => (.path p, not_found)
  | none =>
    let p := path_join hl_kent_binaries_path name
    if env.path_exists p then (.path p, not_found)
    else (.path p, not_found ++ [name])

/-- `__locate_chain_net`: search path, then the chain-clean micro-env directory; on
success the Python boolean `True` is stored (not a path), otherwise the name is
appended to `not_found`.  The scripts subdirectory is never consulted. -/
def mod_locate_chain_net (chain_clean_env_dir : String) (env : OsEnv) (name : String)
    (not_found : List String) : ExecValue × List String :=
  if (env.which name).isSome then (.pyTrue, not_found)
  else if env.isfile (path_join chain_clean_env_dir name) then (.pyTrue, not_found)
  else (.pyNone, not_found ++ [name])

/-- Tool-name configuration of the modules resolver.  The concrete name strings live
in `constants.py`, which is not among the sources, so they are parameters here; the
resolution logic itself is taken from `modules/step_executables.py`. -/
structure ModConfig where
  script_names : List String
  binary_names : List String
  chain_net_name : String
  kent_binaries_dirname : String
  chain_clean_micro_env_dirname : String

/-- Result of running all the per-tool resolutions of
`modules.step_executables.StepExecutables.__init__`, before the completeness
check. -/
structure ModResolver where
  scripts : List (String × ExecValue)
  binaries : List (String × ExecValue)
  chain_net : String × ExecValue
  not_found : List String
deriving DecidableEq

/-- The per-tool resolution phase of the modules resolver, in source order: scripts,
then binaries, then `chainNet`, threading the `not_found` accumulator through. -/
def mod_resolve (root_dir cwd : String) (env : OsEnv) (cfg : ModConfig) : ModResolver :=
  let hl := path_join root_dir cfg.kent_binaries_dirname
  let cce := path_join root_dir cfg.chain_clean_micro_env_dirname
  let s := cfg.script_names.foldl (fun acc n =>
      let r := mod_find_script root_dir cwd env n acc.2
      (acc.1 ++ [(n, r.1)], r.2)) ([], [])
  let b := cfg.binary_names.foldl (fun acc n =>
      let r := mod_find_binary hl env n acc.2
      (acc.1 ++ [(n, r.1)], r.2)) ([], s.2)
  let cn := mod_locate_chain_net cce env cfg.chain_net_name b.2
  ⟨s.1, b.1, (cfg.chain_net_name, cn.1), cn.2⟩

/-- The aggregated error message of
`modules.step_executables.StepExecutables.__check_completeness`. -/
def completeness_err_msg (chain_clean_env_dir hl_path : String)
    (not_found : List String) : String :=
  ("Error! The following tools not found neither in $PATH nor in the download dir:\n")
  ++ String.intercalate ("\n") (not_found.map (fun x => ("* ") ++ x))
  ++ ("\nPlease note that chainNet should be placed either in $PATH or in the ")
  ++ chain_clean_env_dir
  ++ (" directory. Other tools are expected to be either in $PATH or ")
  ++ hl_path
  ++ ("\nPlease use install_dependencies.py to automate the process.")

/-- `modules.step_executables.StepExecutables.__init__` end to end: resolve every
tool, then raise `ExecutableNotFoundError` with the aggregated message when
anything is missing. -/
def mod_StepExecutables (root_dir cwd : String) (env : OsEnv) (cfg : ModConfig) :
    Except String ModResolver :=
  let r := mod_resolve root_dir cwd env cfg
  if r.not_found = [] then .ok r
  else .error (completeness_err_msg (path_join root_dir cfg.chain_clean_micro_env_dirname)
      (path_join root_dir cfg.kent_binaries_dirname) r.not_found)

/-- An environment with nothing installed: empty search path, no files. -/
def envNothing : OsEnv :=
  { which := fun _ => none, isfile := fun _ => false, path_exists := fun _ => false }

/-- A representative tool-name configuration for the modules resolver (two scripts,
two binaries, `chainNet`). -/
def modCfg0 : ModConfig :=
  { script_names := ["run_lastz.py", "chain_gap_filler.py"],
    binary_names := ["faToTwoBit", "twoBitToFa"],
    chain_net_name := "chainNet",
    kent_binaries_dirname := "HL_kent_binaries",
    chain_clean_micro_env_dirname := "chain_clean_micro_env" }

/-- C2: the claim says that when executables are missing, construction of the
executables record raises before any step runs and the message names every missing
tool.  `run_pipeline` instantiates the `StepExecutables` class defined in
`make_chains.py` itself, whose `__find_script` raises `ValueError` at the first
missing tool: in an environment where everything is missing, the raised message
names only `partitionSequence.pl` and not the equally missing `run_lastz.py`.  The
aggregating behaviour the claim describes exists in
`modules.step_executables.StepExecutables` (evaluated on the same environment, its
`ExecutableNotFoundError` message names every missing tool), but that class is not
the one `run_pipeline` constructs. -/
theorem C2_resolver_aggregation_bug :
    mc_StepExecutables ("/repo") ("/cwd") envNothing
      = .error ("Error! Cannot locate script: partitionSequence.pl")
    ∧ strContains ("Error! Cannot locate script: partitionSequence.pl")
        ("partitionSequence.pl") = true
    ∧ strContains ("Error! Cannot locate script: partitionSequence.pl")
        ("run_lastz.py") = false
    ∧ (mod_resolve ("/repo") ("/cwd") envNothing modCfg0).not_found
        = ["run_lastz.py", "chain_gap_filler.py", "faToTwoBit", "twoBitToFa", "chainNet"]
    ∧ mod_StepExecutables ("/repo") ("/cwd") envNothing modCfg0
        = .error (completeness_err_msg ("/repo/chain_clean_micro_env")
            ("/repo/HL_kent_binaries")
            ["run_lastz.py", "chain_gap_filler.py", "faToTwoBit", "twoBitToFa", "chainNet"])
    ∧ (["run_lastz.py", "chain_gap_filler.py", "faToTwoBit", "twoBitToFa",
        "chainNet"].all (fun n =>
          strContains (completeness_err_msg ("/repo/chain_clean_micro_env")
            ("/repo/HL_kent_binaries")
            ["run_lastz.py", "chain_gap_filler.py", "faToTwoBit", "twoBitToFa",
             "chainNet"]) n)) = true := by
  refine ⟨by rfl, by decide, by decide, by rfl, by rfl, by decide⟩

/-- Appending anything to an absolute path keeps it absolute. -/
theorem isAbs_append_left (a b : String) (h : isAbs a = true) : isAbs (a ++ b) = true := by
  cases a with
  | mk d =>
    cases d with
    | nil => simp [isAbs] at h
    | cons c t =>
      cases b with
      | mk d2 => exact h

/-- Joining onto an absolute directory yields an absolute path. -/
theorem isAbs_path_join (a b : String) (h : isAbs a = true) :
    isAbs (path_join a b) = true := by
  unfold path_join
  by_cases hb : isAbs b = true
  · simp [hb]
  · simp only [hb, if_false, Bool.false_eq_true]
    exact isAbs_append_left _ _ (isAbs_append_left _ _ h)

/-- `abspath` relative to an absolute working directory is absolute. -/
theorem isAbs_abspath (cwd p : String) (h : isAbs cwd = true) :
    isAbs (abspath cwd p) = true := by
  unfold abspath
  by_cases hp : isAbs p = true
  · simp [hp]
  · simp only [hp, if_false, Bool.false_eq_true]
    exact isAbs_path_join _ _ h

/-- An environment in which `chainNet` is on the search path and nothing else
exists. -/
def envChainNetOnPath : OsEnv :=
  { which := fun n => if n = ("chainNet") then some ("/usr/bin/chainNet") else none,
    isfile := fun _ => false,
    path_exists := fun _ => false }

/-- C6 counterexample: with `chainNet` available on the search path, the modules
resolver resolves it (it is not recorded missing) yet stores the Python boolean
`True` for it, not a filesystem path — so the claim that every resolved tool maps
to an absolute path is false as stated. -/
theorem C6_chain_net_boolean_counterexample :
    (mod_locate_chain_net ("/repo/chain_clean_micro_env") envChainNetOnPath
        ("chainNet") []).2 = []
    ∧ (mod_locate_chain_net ("/repo/chain_clean_micro_env") envChainNetOnPath
        ("chainNet") []).1 = ExecValue.pyTrue
    ∧ isPathValue (mod_locate_chain_net ("/repo/chain_clean_micro_env")
        envChainNetOnPath ("chainNet") []).1 = false := by
  refine ⟨by rfl, by rfl, by rfl⟩

/-- C6 (amended): given an absolute root directory, an absolute working directory,
an absolute Kent-binaries directory and a search path that yields absolute paths,
every script and every binary the modules resolver stores as a path is stored as an
absolute path; and the net-builder tool (`chainNet`) is resolved exactly via the
process search path or the fallback environment directory — the scripts
subdirectory plays no part — but on success it is recorded as the Python boolean
`True`, never as a path. -/
theorem C6_resolver_paths_absolute_chain_net_rules
    (root_dir cwd hl_dir cce_dir : String) (env : OsEnv)
    (hcwd : isAbs cwd = true) (hhl : isAbs hl_dir = true)
    (hwhich : ∀ n p, env.which n = some p → isAbs p = true) :
    (∀ name nf p, (mod_find_script root_dir cwd env name nf).1 = ExecValue.path p →
      isAbs p = true)
    ∧ (∀ name nf p, (mod_find_binary hl_dir env name nf).1 = ExecValue.path p →
      isAbs p = true)
    ∧ (∀ name nf,
        ((mod_locate_chain_net cce_dir env name nf).1 = ExecValue.pyTrue
          ↔ ((env.which name).isSome = true
             ∨ env.isfile (path_join cce_dir name) = true))
        ∧ isPathValue (mod_locate_chain_net cce_dir env name nf).1 = false) := by
  refine ⟨?_, ?_, ?_⟩
  · intro name nf p hp
    unfold mod_find_script at hp
    by_cases hf : env.isfile (abspath cwd (path_join (path_join root_dir
        ("standalone_scripts")) name)) = true
    · simp only [hf, if_true] at hp
      cases hp
      exact isAbs_abspath _ _ hcwd
    · simp [hf] at hp
  · intro name nf p hp
    unfold mod_find_binary at hp
    cases hw : env.which name with
    | some q =>
      rw [hw] at hp
      simp only at hp
      cases hp
      exact hwhich name _ hw
    | none =>
      rw [hw] at hp
      by_cases he : env.path_exists (path_join hl_dir name) = true
      · simp only [he, if_true] at hp
        cases hp
        exact isAbs_path_join _ _ hhl
      · simp only [he, if_false] at hp
        cases hp
        exact isAbs_path_join _ _ hhl
  · intro name nf
    unfold mod_locate_chain_net
    by_cases hw : (env.which name).isSome = true
    · simp [hw, isPathValue]
    · by_cases hf : env.isfile (path_join cce_dir name) = true
      · simp [hw, hf, isPathValue]
      · simp [hw, hf, isPathValue]

/-- An environment with everything available: the search path resolves every name
to the same absolute path and every file exists. -/
def envAllFound : OsEnv :=
  { which := fun _ => some ("/usr/bin/tool"),
    isfile := fun _ => true,
    path_exists := fun _ => true }

/-- C6 witness: the amended theorem applied at a concrete absolute root and the
`envAllFound` environment; the resolved script path is absolute and `chainNet`
is recorded as a non-path. -/
theorem C6_resolver_paths_absolute_chain_net_rules_witness :
    isAbs (abspath ("/cwd") (path_join (path_join ("/repo") ("standalone_scripts"))
      ("run_lastz.py"))) = true
    ∧ isPathValue (mod_locate_chain_net ("/repo/chain_clean_micro_env") envAllFound
        ("chainNet") []).1 = false := by
  have h := C6_resolver_paths_absolute_chain_net_rules ("/repo") ("/cwd")
    ("/repo/HL_kent_binaries") ("/repo/chain_clean_micro_env") envAllFound
    (by decide) (by decide)
    (fun n p hp => by
      simp only [envAllFound, Option.some.injEq] at hp
      cases hp
      decide)
  refine ⟨h.1 ("run_lastz.py") [] _ (by rfl), (h.2.2 ("chainNet") []).2⟩


/-! ## Chain-run step (`steps_implementations/chain_run_step.py`) and
`steps_implementations/bundle_psl_step.py` -/

/-- Directory-name constants from `constants.py`, which is not among the sources;
the claims do not depend on the concrete strings, only on the directories being
the fixed well-known subdirectories of the chain-run directory. -/
def PSL_SORT_TEMP_DIRNAME : String := "psl_sort_temp"

/-- See `PSL_SORT_TEMP_DIRNAME`. -/
def SORTED_PSL_DIRNAME : String := "sorted_psl"

/-- See `PSL_SORT_TEMP_DIRNAME`. -/
def SPLIT_PSL_DIRNAME : String := "split_psl"

/-- See `PSL_SORT_TEMP_DIRNAME`. -/
def CHAIN_RUN_OUT_DIRNAME : String := "chain"

/-- State of the temporary sort directory: whether it exists and which files it
currently holds. -/
structure TempDirState where
  present : Bool
  files : List String
deriving DecidableEq

/-- `os.makedirs(d, exist_ok=True)`: creates the directory empty when absent; an
existing directory — stale contents included — is left untouched. -/
def makedirs_exist_ok (d : TempDirState) : TempDirState :=
  if d.present then d else ⟨true, []⟩

/-- Externally visible actions of `psl_bundle`, in program order. -/
inductive BundleEvent where
  | makedirs (dir : String)
  | runSort (cmd : List String)
  | rmtree (dir : String)
  | runBundleSubstep (sortedDir splitDir : String)
deriving DecidableEq

/-- The observable behaviour of one run of `psl_bundle`: its action trace, the sort
command vector, the (ignored) sort exit status, and the temporary sort directory's
state at the moment the sort runs and after the function returns. -/
structure PslBundleRun where
  events : List BundleEvent
  sortCmd : List String
  sortReturncode : Int
  tempDirAtSort : TempDirState
  tempDirFinal : TempDirState
deriving DecidableEq

/-- Embedding of `psl_bundle`: list the concatenated per-chunk files, join their
paths into one space-separated string, `os.makedirs(..., exist_ok=True)` the sort
temp and sorted directories, invoke the external sort via `subprocess.call` (which
returns the exit status without raising; the code discards it), `shutil.rmtree` the
temp directory, then run the bundling substep (`bundle_chrom_split_psl_files`, a
Python function from a module outside the sources, recorded here as an event). -/
def psl_bundle (cat_out_dirname chain_run_dir psl_sort_acc : String)
    (listdir_cat : List String) (sortExit : Int) (tempInit : TempDirState) :
    PslBundleRun :=
  let concatenated_files := listdir_cat.map (fun x => path_join cat_out_dirname x)
  let file_list_arg := String.intercalate (" ") concatenated_files
  let psl_sort_temp_dir := path_join chain_run_dir PSL_SORT_TEMP_DIRNAME
  let tempAfterMk := makedirs_exist_ok tempInit
  let sorted_psl_dir := path_join chain_run_dir SORTED_PSL_DIRNAME
  let sort_cmd := [psl_sort_acc, "nohead", sorted_psl_dir, psl_sort_temp_dir,
    file_list_arg]
  let split_psl_dir := path_join chain_run_dir SPLIT_PSL_DIRNAME
  { events := [BundleEvent.makedirs psl_sort_temp_dir,
               BundleEvent.makedirs sorted_psl_dir,
               BundleEvent.runSort sort_cmd,
               BundleEvent.rmtree psl_sort_temp_dir,
               BundleEvent.makedirs split_psl_dir,
               BundleEvent.runBundleSubstep sorted_psl_dir split_psl_dir],
    sortCmd := sort_cmd,
    sortReturncode := sortExit,
    tempDirAtSort := tempAfterMk,
    tempDirFinal := ⟨false, []⟩ }

/-- Result of `subprocess.run(cmd, shell=True, check=True)`: non-zero exit raises
`CalledProcessError`. -/
inductive SubprocResult where
  | ok
  | calledProcessError (cmd : String) (code : Int)
deriving DecidableEq

/-- `subprocess.run(cmd, shell=True, check=True)` as a function of the exit code. -/
def run_shell_checked (cmd : String) (code : Int) : SubprocResult :=
  if code = 0 then .ok else .calledProcessError cmd code

/-- `bundle_psl_step.sort_psl_file`: the shell sort command, run with `check=True`. -/
def sort_psl_file (input_file temp_sort_dir output_file
    psl_sort_acc_executable : String) (exitCode : Int) : SubprocResult :=
  run_shell_checked (psl_sort_acc_executable ++ (" nohead ") ++ output_file
    ++ (" ") ++ temp_sort_dir ++ (" ") ++ input_file) exitCode

/-- `bundle_psl_step.bundle_psl_file`: the shell bundle command, run with
`check=True`. -/
def bundle_psl_file (input_file output_dir : String) (max_bases : Int)
    (bundle_exe : String) (exitCode : Int) : SubprocResult :=
  run_shell_checked (bundle_exe ++ (" ") ++ input_file ++ (" ") ++ output_dir
    ++ (" --maxBases ") ++ toString max_bases) exitCode

/-- C4 counterexample: in `psl_bundle` (the sort phase the chain-run step actually
executes) the sort subprocess is launched with `subprocess.call` and its exit
status is discarded: with exit status 1 the step performs exactly the same actions
as with exit status 0 — in particular it still proceeds to the bundling phase —
so a non-zero sort exit does not abort the step as claimed. -/
theorem C4_sort_exit_ignored_counterexample :
    (psl_bundle ("/proj/TEMP_psl") ("/proj/TEMP_axtChain") ("/opt/kent/pslSortAcc")
        ["part1.psl"] 1 ⟨false, []⟩).events
      = (psl_bundle ("/proj/TEMP_psl") ("/proj/TEMP_axtChain") ("/opt/kent/pslSortAcc")
        ["part1.psl"] 0 ⟨false, []⟩).events
    ∧ BundleEvent.runBundleSubstep (path_join ("/proj/TEMP_axtChain") SORTED_PSL_DIRNAME)
        (path_join ("/proj/TEMP_axtChain") SPLIT_PSL_DIRNAME)
      ∈ (psl_bundle ("/proj/TEMP_psl") ("/proj/TEMP_axtChain") ("/opt/kent/pslSortAcc")
        ["part1.psl"] 1 ⟨false, []⟩).events := by
  refine ⟨rfl, by simp [psl_bundle]⟩

/-- C4 (amended): in `bundle_psl_step.py` a non-zero exit of the sort or bundle
subprocess raises `CalledProcessError` (`check=True`) and so aborts the step;
but in `chain_run_step.psl_bundle` — the sort phase `do_chain_run` actually
invokes — the sort subprocess's exit status is ignored (`subprocess.call`) and
the step always continues to the bundling phase. -/
theorem C4_sort_bundle_failure_handling
    (i t o exe bexe odir : String) (mb : Int) (code : Int) (h : code ≠ 0)
    (cat chain_run acc : String) (files : List String) (tempInit : TempDirState) :
    (∃ cmd, sort_psl_file i t o exe code = SubprocResult.calledProcessError cmd code)
    ∧ (∃ cmd, bundle_psl_file i odir mb bexe code
        = SubprocResult.calledProcessError cmd code)
    ∧ (psl_bundle cat chain_run acc files code tempInit).events
        = (psl_bundle cat chain_run acc files 0 tempInit).events
    ∧ BundleEvent.runBundleSubstep (path_join chain_run SORTED_PSL_DIRNAME)
        (path_join chain_run SPLIT_PSL_DIRNAME)
      ∈ (psl_bundle cat chain_run acc files code tempInit).events := by
  refine ⟨⟨exe ++ (" nohead ") ++ o ++ (" ") ++ t ++ (" ") ++ i, ?_⟩,
    ⟨bexe ++ (" ") ++ i ++ (" ") ++ odir ++ (" --maxBases ") ++ toString mb, ?_⟩,
    rfl, ?_⟩
  · simp [sort_psl_file, run_shell_checked, h]
  · simp [bundle_psl_file, run_shell_checked, h]
  · simp [psl_bundle]

/-- C4 witness: the amended theorem applied at exit code 1 and concrete paths. -/
theorem C4_sort_bundle_failure_handling_witness :
    (∃ cmd, sort_psl_file ("/a.psl") ("/tmpdir") ("/out") ("/opt/kent/pslSortAcc") 1
      = SubprocResult.calledProcessError cmd 1)
    ∧ BundleEvent.runBundleSubstep (path_join ("/proj/TEMP_axtChain") SORTED_PSL_DIRNAME)
        (path_join ("/proj/TEMP_axtChain") SPLIT_PSL_DIRNAME)
      ∈ (psl_bundle ("/proj/TEMP_psl") ("/proj/TEMP_axtChain") ("/opt/kent/pslSortAcc")
        ["part1.psl"] 1 ⟨false, []⟩).events := by
  have h := C4_sort_bundle_failure_handling ("/a.psl") ("/tmpdir") ("/out")
    ("/opt/kent/pslSortAcc") ("/opt/kent/bundler") ("/odir") 50000000 1 (by decide)
    ("/proj/TEMP_psl") ("/proj/TEMP_axtChain") ("/opt/kent/pslSortAcc")
    ["part1.psl"] ⟨false, []⟩
  exact ⟨h.1, h.2.2.2⟩

/-- C8 counterexample: the temporary sort directory is created with
`os.makedirs(..., exist_ok=True)`: when it already exists (for example left over
from a previous crashed run) its stale contents are still present at the moment
the external sort runs, so the directory is not created fresh as claimed. -/
theorem C8_stale_temp_dir_counterexample :
    (psl_bundle ("/proj/TEMP_psl") ("/proj/TEMP_axtChain") ("/opt/kent/pslSortAcc")
        ["part1.psl"] 0 ⟨true, ["stale.psl"]⟩).tempDirAtSort.files = ["stale.psl"]
    ∧ (["stale.psl"] : List String) ≠ [] := by
  refine ⟨rfl, by decide⟩

/-- C8 (amended): before the external sort runs the temporary sort directory
exists — created empty when it was absent, but reused together with its contents
when it already existed (`exist_ok=True`) — and after `psl_bundle` returns it has
been removed, whatever the sort subprocess's exit status was. -/
theorem C8_temp_dir_lifecycle
    (cat chain_run acc : String) (files : List String) (sortExit : Int)
    (tempInit : TempDirState) :
    (psl_bundle cat chain_run acc files sortExit tempInit).tempDirAtSort.present = true
    ∧ (tempInit.present = false →
        (psl_bundle cat chain_run acc files sortExit tempInit).tempDirAtSort
          = ⟨true, []⟩)
    ∧ (psl_bundle cat chain_run acc files sortExit tempInit).tempDirFinal
        = ⟨false, []⟩ := by
  refine ⟨?_, ?_, rfl⟩
  · by_cases hp : tempInit.present = true
    · simp [psl_bundle, makedirs_exist_ok, hp]
    · simp [psl_bundle, makedirs_exist_ok, hp]
  · intro hp
    simp [psl_bundle, makedirs_exist_ok, hp]

/-- C8 witness: with an initially absent temp directory and a failing sort (exit
status 1), the directory is empty at sort time and gone afterwards. -/
theorem C8_temp_dir_lifecycle_witness :
    (psl_bundle ("/proj/TEMP_psl") ("/proj/TEMP_axtChain") ("/opt/kent/pslSortAcc")
        ["part1.psl"] 1 ⟨false, []⟩).tempDirAtSort = ⟨true, []⟩
    ∧ (psl_bundle ("/proj/TEMP_psl") ("/proj/TEMP_axtChain") ("/opt/kent/pslSortAcc")
        ["part1.psl"] 1 ⟨false, []⟩).tempDirFinal = ⟨false, []⟩ := by
  have h := C8_temp_dir_lifecycle ("/proj/TEMP_psl") ("/proj/TEMP_axtChain")
    ("/opt/kent/pslSortAcc") ["part1.psl"] 1 ⟨false, []⟩
  exact ⟨h.2.1 rfl, h.2.2⟩

set_option linter.unusedVariables false in
/-- C10: for a non-empty list of concatenated per-chunk files, the sort command
vector built by `psl_bundle` has exactly five elements, the last being all the file
paths joined into one space-separated string — the argument-vector length does not
depend on how many input files exist. -/
theorem C10_sort_cmd_five_elements
    (cat chain_run acc : String) (files : List String) (sortExit : Int)
    (tempInit : TempDirState) (h : files ≠ []) :
    (psl_bundle cat chain_run acc files sortExit tempInit).sortCmd
      = [acc, "nohead", path_join chain_run SORTED_PSL_DIRNAME,
         path_join chain_run PSL_SORT_TEMP_DIRNAME,
         String.intercalate (" ") (files.map (fun x => path_join cat x))]
    ∧ (psl_bundle cat chain_run acc files sortExit tempInit).sortCmd.length = 5 := by
  exact ⟨rfl, rfl⟩

/-- C10 witness: the theorem applied to three concrete input files. -/
theorem C10_sort_cmd_five_elements_witness :
    (psl_bundle ("/proj/TEMP_psl") ("/proj/TEMP_axtChain") ("/opt/kent/pslSortAcc")
        ["p1.psl", "p2.psl", "p3.psl"] 0 ⟨false, []⟩).sortCmd.length = 5 := by
  exact (C10_sort_cmd_five_elements ("/proj/TEMP_psl") ("/proj/TEMP_axtChain")
    ("/opt/kent/pslSortAcc") ["p1.psl", "p2.psl", "p3.psl"] 0 ⟨false, []⟩
    (by decide)).2

/-- The token list of one chaining job for bundle file `b` — the Python `cmd` list
built in `make_chains_joblist` before `" ".join`. -/
def chain_job_tokens (chain_run_dir seq1_dir seq2_dir : String) (min_score : Int)
    (linear_gap axt_chain chain_anti_repeat : String) (b : String) : List String :=
  [axt_chain,
   "-psl",
   "-verbose=0",
   ("-minScore=") ++ toString min_score,
   ("-linearGap=") ++ linear_gap,
   path_join (path_join chain_run_dir SPLIT_PSL_DIRNAME) b,
   seq1_dir,
   seq2_dir,
   "stdout",
   "|",
   chain_anti_repeat,
   seq1_dir,
   seq2_dir,
   "stdin",
   path_join (path_join chain_run_dir CHAIN_RUN_OUT_DIRNAME) (b ++ (".chain"))]

/-- Embedding of `make_chains_joblist`: one `" ".join`-ed command line per bundle
file found in the split-PSL directory (the directory listing is the
`bundle_filenames` argument). -/
def make_chains_joblist (chain_run_dir seq1_dir seq2_dir : String) (min_score : Int)
    (linear_gap axt_chain chain_anti_repeat : String)
    (bundle_filenames : List String) : List String :=
  bundle_filenames.map (fun b => String.intercalate (" ")
    (chain_job_tokens chain_run_dir seq1_dir seq2_dir min_score linear_gap
      axt_chain chain_anti_repeat b))

/-- Appending `.chain` to a non-absolute file name keeps it non-absolute. -/
theorem isAbs_append_chain (b : String) (h : isAbs b = false) :
    isAbs (b ++ (".chain")) = false := by
  cases b with
  | mk d =>
    cases d with
    | nil => decide
    | cons c t => exact h

/-- The character data of an appended string is the appended character data. -/
theorem str_data_append (a b : String) : (a ++ b).data = a.data ++ b.data := by
  cases a
  cases b
  rfl

/-- Joining distinct non-absolute file names onto the same directory gives distinct
paths. -/
theorem path_join_chain_inj (d b₁ b₂ : String) (h₁ : isAbs b₁ = false)
    (h₂ : isAbs b₂ = false)
    (he : path_join d (b₁ ++ (".chain")) = path_join d (b₂ ++ (".chain"))) :
    b₁ = b₂ := by
  unfold path_join at he
  rw [isAbs_append_chain b₁ h₁, isAbs_append_chain b₂ h₂] at he
  simp only [Bool.false_eq_true, if_false] at he
  have hd := congrArg String.data he
  rw [str_data_append, str_data_append, str_data_append, str_data_append] at hd
  have h3 := List.append_cancel_left hd
  have h4 := List.append_cancel_right h3
  cases b₁ with
  | mk l₁ =>
    cases b₂ with
    | mk l₂ => exact congrArg String.mk h4

set_option linter.unusedVariables false in
/-- C5: `make_chains_joblist` produces exactly one command line per bundle file;
the command for a bundle is the space-join of a token list carrying the chaining
tool, the bundle's path, both sequence directories, the minimum-score and
linear-gap parameters, the pipe into the repeat-anti-masking tool, and that
bundle's own output chain file; distinct bundle files get distinct output chain
files. -/
theorem C5_one_job_per_bundle
    (chain_run_dir seq1_dir seq2_dir : String) (min_score : Int)
    (linear_gap axt_chain chain_anti_repeat : String) (fns : List String)
    (hnd : fns.Nodup) (habs : ∀ b ∈ fns, isAbs b = false) :
    (make_chains_joblist chain_run_dir seq1_dir seq2_dir min_score linear_gap
        axt_chain chain_anti_repeat fns).length = fns.length
    ∧ (∀ b ∈ fns,
        String.intercalate (" ") (chain_job_tokens chain_run_dir seq1_dir seq2_dir
            min_score linear_gap axt_chain chain_anti_repeat b)
          ∈ make_chains_joblist chain_run_dir seq1_dir seq2_dir min_score
              linear_gap axt_chain chain_anti_repeat fns
        ∧ axt_chain ∈ chain_job_tokens chain_run_dir seq1_dir seq2_dir min_score
            linear_gap axt_chain chain_anti_repeat b
        ∧ (("-minScore=") ++ toString min_score) ∈ chain_job_tokens chain_run_dir
            seq1_dir seq2_dir min_score linear_gap axt_chain chain_anti_repeat b
        ∧ (("-linearGap=") ++ linear_gap) ∈ chain_job_tokens chain_run_dir
            seq1_dir seq2_dir min_score linear_gap axt_chain chain_anti_repeat b
        ∧ path_join (path_join chain_run_dir SPLIT_PSL_DIRNAME) b
            ∈ chain_job_tokens chain_run_dir seq1_dir seq2_dir min_score
                linear_gap axt_chain chain_anti_repeat b
        ∧ seq1_dir ∈ chain_job_tokens chain_run_dir seq1_dir seq2_dir min_score
            linear_gap axt_chain chain_anti_repeat b
        ∧ seq2_dir ∈ chain_job_tokens chain_run_dir seq1_dir seq2_dir min_score
            linear_gap axt_chain chain_anti_repeat b
        ∧ ("|") ∈ chain_job_tokens chain_run_dir seq1_dir seq2_dir min_score
            linear_gap axt_chain chain_anti_repeat b
        ∧ chain_anti_repeat ∈ chain_job_tokens chain_run_dir seq1_dir seq2_dir
            min_score linear_gap axt_chain chain_anti_repeat b
        ∧ path_join (path_join chain_run_dir CHAIN_RUN_OUT_DIRNAME) (b ++ (".chain"))
            ∈ chain_job_tokens chain_run_dir seq1_dir seq2_dir min_score
                linear_gap axt_chain chain_anti_repeat b)
    ∧ (fns.map (fun b => path_join (path_join chain_run_dir CHAIN_RUN_OUT_DIRNAME)
        (b ++ (".chain")))).Nodup := by
  refine ⟨List.length_map _ _, ?_, ?_⟩
  · intro b hb
    refine ⟨List.mem_map_of_mem _ hb, ?_⟩
    simp [chain_job_tokens]
  · refine List.Nodup.map_on ?_ hnd
    intro x hx y hy hxy
    exact path_join_chain_inj _ x y (habs x hx) (habs y hy) hxy

/-- C5 witness: two concrete bundle files yield two commands and two distinct
output chain paths. -/
theorem C5_one_job_per_bundle_witness :
    (make_chains_joblist ("/proj/TEMP_axtChain") ("/proj/target.2bit")
        ("/proj/query.2bit") 1000 ("loose") ("/opt/kent/axtChain")
        ("/opt/kent/chainAntiRepeat") ["bundle_1.psl", "bundle_2.psl"]).length
      = (["bundle_1.psl", "bundle_2.psl"] : List String).length
    ∧ ((["bundle_1.psl", "bundle_2.psl"] : List String).map (fun b =>
        path_join (path_join ("/proj/TEMP_axtChain") CHAIN_RUN_OUT_DIRNAME)
          (b ++ (".chain")))).Nodup := by
  have h := C5_one_job_per_bundle ("/proj/TEMP_axtChain") ("/proj/target.2bit")
    ("/proj/query.2bit") 1000 ("loose") ("/opt/kent/axtChain")
    ("/opt/kent/chainAntiRepeat") ["bundle_1.psl", "bundle_2.psl"]
    (by decide) (by decide)
  exact ⟨h.1, h.2.2⟩

/-! ## Parameter store and CLI entry (`make_chains.py`; `modules/parameters.py` is
not among the sources) -/

/-- A JSON scalar as stored in the persisted parameter dump. -/
inductive JVal where
  | jint (n : Int)
  | jstr (s : String)
deriving DecidableEq

/-- Read an integer field from a decoded JSON object. -/
def jget_int (j : List (String × JVal)) (k : String) : Option Int :=
  match j.lookup k with
  | some (.jint n) => some n
  | _ => none

/-- Read a string field from a decoded JSON object. -/
def jget_str (j : List (String × JVal)) (k : String) : Option String :=
  match j.lookup k with
  | some (.jstr s) => some s
  | _ => none

/-- Modelled from the spec: `modules/parameters.py` (the `PipelineParameters`
record with `dump_to_json` and its loader) is not among the sources.  Per the spec
the record is a flat mapping of option name to value — the CLI pipeline-parameter
options declared in `make_chains.py`'s `parse_args` (integers and strings) — plus
the derived sequence-directory paths and sequence total lengths. -/
structure PipelineParameters where
  lastz_y : Int
  lastz_h : Int
  lastz_l : Int
  lastz_k : Int
  seq1_chunk : Int
  seq1_lap : Int
  seq1_limit : Int
  seq2_chunk : Int
  seq2_lap : Int
  seq2_limit : Int
  fill_chain : Int
  fill_unmask : Int
  fill_chain_min_score : Int
  fill_insert_chain_minscore : Int
  fill_gap_max_size_t : Int
  fill_gap_max_size_q : Int
  fill_gap_min_size_t : Int
  fill_gap_min_size_q : Int
  fill_lastz_k : Int
  fill_lastz_l : Int
  fill_memory : Int
  fill_prepare_memory : Int
  chaining_queue : String
  chaining_memory : Int
  clean_chain : Int
  chain_clean_memory : Int
  clean_chain_parameters : String
  seq_1_dir : String
  seq_2_dir : String
  seq_1_len : Int
  seq_2_len : Int
deriving DecidableEq

/-- Modelled from the spec: `persist` (`dump_to_json`) writes the parameter record
as a JSON object, one field per option, derived fields included. -/
def persist_params (p : PipelineParameters) : List (String × JVal) :=
  [("lastz_y", .jint p.lastz_y),
   ("lastz_h", .jint p.lastz_h),
   ("lastz_l", .jint p.lastz_l),
   ("lastz_k", .jint p.lastz_k),
   ("seq1_chunk", .jint p.seq1_chunk),
   ("seq1_lap", .jint p.seq1_lap),
   ("seq1_limit", .jint p.seq1_limit),
   ("seq2_chunk", .jint p.seq2_chunk),
   ("seq2_lap", .jint p.seq2_lap),
   ("seq2_limit", .jint p.seq2_limit),
   ("fill_chain", .jint p.fill_chain),
   ("fill_unmask", .jint p.fill_unmask),
   ("fill_chain_min_score", .jint p.fill_chain_min_score),
   ("fill_insert_chain_minscore", .jint p.fill_insert_chain_minscore),
   ("fill_gap_max_size_t", .jint p.fill_gap_max_size_t),
   ("fill_gap_max_size_q", .jint p.fill_gap_max_size_q),
   ("fill_gap_min_size_t", .jint p.fill_gap_min_size_t),
   ("fill_gap_min_size_q", .jint p.fill_gap_min_size_q),
   ("fill_lastz_k", .jint p.fill_lastz_k),
   ("fill_lastz_l", .jint p.fill_lastz_l),
   ("fill_memory", .jint p.fill_memory),
   ("fill_prepare_memory", .jint p.fill_prepare_memory),
   ("chaining_queue", .jstr p.chaining_queue),
   ("chaining_memory", .jint p.chaining_memory),
   ("clean_chain", .jint p.clean_chain),
   ("chain_clean_memory", .jint p.chain_clean_memory),
   ("clean_chain_parameters", .jstr p.clean_chain_parameters),
   ("seq_1_dir", .jstr p.seq_1_dir),
   ("seq_2_dir", .jstr p.seq_2_dir),
   ("seq_1_len", .jint p.seq_1_len),
   ("seq_2_len", .jint p.seq_2_len)]

/-- Intermediate decoding block for `load_params`: the alignment and chunking options. -/
structure LastzParamsBlock where
  lastz_y : Int
  lastz_h : Int
  lastz_l : Int
  lastz_k : Int
  seq1_chunk : Int
  seq1_lap : Int
  seq1_limit : Int
  seq2_chunk : Int
  seq2_lap : Int
  seq2_limit : Int

/-- Decode the fields of `LastzParamsBlock` from the persisted JSON object. -/
def load_LastzParamsBlock (j : List (String × JVal)) : Option LastzParamsBlock := do
  let lastz_y ← jget_int j ("lastz_y")
  let lastz_h ← jget_int j ("lastz_h")
  let lastz_l ← jget_int j ("lastz_l")
  let lastz_k ← jget_int j ("lastz_k")
  let seq1_chunk ← jget_int j ("seq1_chunk")
  let seq1_lap ← jget_int j ("seq1_lap")
  let seq1_limit ← jget_int j ("seq1_limit")
  let seq2_chunk ← jget_int j ("seq2_chunk")
  let seq2_lap ← jget_int j ("seq2_lap")
  let seq2_limit ← jget_int j ("seq2_limit")
  pure ⟨lastz_y, lastz_h, lastz_l, lastz_k, seq1_chunk, seq1_lap, seq1_limit, seq2_chunk, seq2_lap, seq2_limit⟩

/-- Intermediate decoding block for `load_params`: the gap-filling options. -/
structure FillParamsBlock where
  fill_chain : Int
  fill_unmask : Int
  fill_chain_min_score : Int
  fill_insert_chain_minscore : Int
  fill_gap_max_size_t : Int
  fill_gap_max_size_q : Int
  fill_gap_min_size_t : Int
  fill_gap_min_size_q : Int
  fill_lastz_k : Int
  fill_lastz_l : Int
  fill_memory : Int
  fill_prepare_memory : Int

/-- Decode the fields of `FillParamsBlock` from the persisted JSON object. -/
def load_FillParamsBlock (j : List (String × JVal)) : Option FillParamsBlock := do
  let fill_chain ← jget_int j ("fill_chain")
  let fill_unmask ← jget_int j ("fill_unmask")
  let fill_chain_min_score ← jget_int j ("fill_chain_min_score")
  let fill_insert_chain_minscore ← jget_int j ("fill_insert_chain_minscore")
  let fill_gap_max_size_t ← jget_int j ("fill_gap_max_size_t")
  let fill_gap_max_size_q ← jget_int j ("fill_gap_max_size_q")
  let fill_gap_min_size_t ← jget_int j ("fill_gap_min_size_t")
  let fill_gap_min_size_q ← jget_int j ("fill_gap_min_size_q")
  let fill_lastz_k ← jget_int j ("fill_lastz_k")
  let fill_lastz_l ← jget_int j ("fill_lastz_l")
  let fill_memory ← jget_int j ("fill_memory")
  let fill_prepare_memory ← jget_int j ("fill_prepare_memory")
  pure ⟨fill_chain, fill_unmask, fill_chain_min_score, fill_insert_chain_minscore, fill_gap_max_size_t, fill_gap_max_size_q, fill_gap_min_size_t, fill_gap_min_size_q, fill_lastz_k, fill_lastz_l, fill_memory, fill_prepare_memory⟩

/-- Intermediate decoding block for `load_params`: the chaining-queue and chain-cleaning options. -/
structure CleanParamsBlock where
  chaining_queue : String
  chaining_memory : Int
  clean_chain : Int
  chain_clean_memory : Int
  clean_chain_parameters : String

/-- Decode the fields of `CleanParamsBlock` from the persisted JSON object. -/
def load_CleanParamsBlock (j : List (String × JVal)) : Option CleanParamsBlock := do
  let chaining_queue ← jget_str j ("chaining_queue")
  let chaining_memory ← jget_int j ("chaining_memory")
  let clean_chain ← jget_int j ("clean_chain")
  let chain_clean_memory ← jget_int j ("chain_clean_memory")
  let clean_chain_parameters ← jget_str j ("clean_chain_parameters")
  pure ⟨chaining_queue, chaining_memory, clean_chain, chain_clean_memory, clean_chain_parameters⟩

/-- Intermediate decoding block for `load_params`: the derived sequence-directory and sequence-length fields. -/
structure DerivedParamsBlock where
  seq_1_dir : String
  seq_2_dir : String
  seq_1_len : Int
  seq_2_len : Int

/-- Decode the fields of `DerivedParamsBlock` from the persisted JSON object. -/
def load_DerivedParamsBlock (j : List (String × JVal)) : Option DerivedParamsBlock := do
  let seq_1_dir ← jget_str j ("seq_1_dir")
  let seq_2_dir ← jget_str j ("seq_2_dir")
  let seq_1_len ← jget_int j ("seq_1_len")
  let seq_2_len ← jget_int j ("seq_2_len")
  pure ⟨seq_1_dir, seq_2_dir, seq_1_len, seq_2_len⟩

/-- Modelled from the spec: `load` reads every field — derived ones included — back
from the persisted JSON object, recomputing nothing; a missing or ill-typed field
fails the load.  (Decoding is staged through the four blocks above purely to keep
elaboration tractable; every field still comes straight from the JSON object.) -/
def load_params (j : List (String × JVal)) : Option PipelineParameters := do
  let b0 ← load_LastzParamsBlock j
  let b1 ← load_FillParamsBlock j
  let b2 ← load_CleanParamsBlock j
  let b3 ← load_DerivedParamsBlock j
  pure ⟨b0.lastz_y, b0.lastz_h, b0.lastz_l, b0.lastz_k, b0.seq1_chunk, b0.seq1_lap, b0.seq1_limit, b0.seq2_chunk, b0.seq2_lap, b0.seq2_limit, b1.fill_chain, b1.fill_unmask, b1.fill_chain_min_score, b1.fill_insert_chain_minscore, b1.fill_gap_max_size_t, b1.fill_gap_max_size_q, b1.fill_gap_min_size_t, b1.fill_gap_min_size_q, b1.fill_lastz_k, b1.fill_lastz_l, b1.fill_memory, b1.fill_prepare_memory, b2.chaining_queue, b2.chaining_memory, b2.clean_chain, b2.chain_clean_memory, b2.clean_chain_parameters, b3.seq_1_dir, b3.seq_2_dir, b3.seq_1_len, b3.seq_2_len⟩

/-- C7: loading a persisted parameter record yields a record equal to the original
in every field, derived sequence-directory and sequence-length fields included —
`load (persist x) = x`, with nothing recomputed on resume. -/
theorem C7_parameters_roundtrip (p : PipelineParameters) :
    load_params (persist_params p) = some p := rfl

/-- The fixed ordered list of pipeline step names, `PipelineSteps.ORDER` from
`modules/pipeline_steps.py`; `--continue_from_step` is restricted to this closed
set via `choices=PipelineSteps.ORDER`. -/
def STEP_ORDER : List String :=
  ["partition", "lastz", "cat", "chain_run", "chain_merge", "fill_chains",
   "clean_chains"]

/-- Outcome of the CLI entry `parse_args`: the help-and-exit path
(`app.print_help(); sys.exit(1)`), an argparse rejection, or a successful parse
carrying the positional arguments and the validated `--continue_from_step`
choice. -/
inductive ParseOutcome where
  | helpExit (code : Int)
  | parseError (msg : String)
  | parsed (positionals : List String) (continue_from_step : Option String)
deriving DecidableEq

/-- Simplified model of `app.parse_args()` for the parser declared in
`parse_args`: walk the argument vector collecting positionals and validating that
a `--continue_from_step` value belongs to the closed step-name set; exactly four
positionals are required.  Other options are not modelled — the claim under study
only needs that this validation phase runs exactly when the argv length check has
passed. -/
def argparse_parse : List String → List String → Option String → ParseOutcome
  | [], pos, cfs =>
    if pos.length = 4 then .parsed pos cfs
    else .parseError ("the following arguments are required")
  | a :: rest, pos, cfs =>
    if a = ("--continue_from_step") then
      match rest with
      | [] => .parseError ("argument --continue_from_step: expected one argument")
      | v :: rest2 =>
        if v ∈ STEP_ORDER then argparse_parse rest2 pos (some v)
        else .parseError ("argument --continue_from_step: invalid choice")
    else argparse_parse rest (pos ++ [a]) cfs

/-- Embedding of `parse_args` from `make_chains.py`: when `len(sys.argv) < 5` the
help text is printed and the process exits with status 1 before `app.parse_args()`
ever runs; otherwise argparse parsing and validation of `sys.argv[1:]` proceeds. -/
def parse_args (argv : List String) : ParseOutcome :=
  if argv.length < 5 then .helpExit 1
  else argparse_parse argv.tail [] none

/-- C9: whenever the process argument vector (program name included) has fewer
than five entries, `parse_args` takes the print-help-and-exit path with status 1 —
whatever the entries contain, so no argument validation or pipeline work happens
first. -/
theorem C9_short_argv_help_exit (argv : List String) (h : argv.length < 5) :
    parse_args argv = ParseOutcome.helpExit 1 := by
  unfold parse_args
  simp [h]

/-- C9 witness: even an invalid `--continue_from_step` choice — which a full parse
would reject with an argparse error — still produces the help-exit when the vector
is short. -/
theorem C9_short_argv_help_exit_witness :
    parse_args ["make_chains.py", "--continue_from_step", "bogus"]
      = ParseOutcome.helpExit 1 :=
  C9_short_argv_help_exit ["make_chains.py", "--continue_from_step", "bogus"]
    (by decide)
